import Mathlib

/-!
Shallow embedding of the media verification and re-acquisition pipeline of
`media_quality_checker.py` and `sonarr_ui_helper.py`.

External effects (the filesystem, the ffprobe subprocess, the Sonarr/Radarr
HTTP API and operator input) are passed in explicitly:

* the on-disk size of a file is an `Option Nat` (`none` models an `OSError`
  from `os.path.getsize`);
* one run of the external inspection tool is an `FfprobeOutcome`
  (non-zero exit code, timeout, malformed JSON on stdout, or a parsed
  stream list);
* outgoing API requests and cache-file writes are recorded in an `Effects`
  value instead of being performed;
* operator input to the interactive release picker is a list of discrete
  commands (`SelCmd`), one per prompt answer.
-/

namespace ArrHelper

/-! ## DecisionEngine — `MediaQualityChecker.should_redownload` -/

/-- `media_quality_checker.py` lines 283-289: re-download when a required
English stream is absent. -/
def should_redownload (require_audio require_subs has_eng_audio has_eng_subs : Bool) : Bool :=
  if require_audio && !has_eng_audio then true
  else if require_subs && !has_eng_subs then true
  else false

/-- Python's `str.lower()`: lowercase each character. -/
def strLower (s : String) : String := ⟨s.data.map Char.toLower⟩

/-- Python's `str.upper()`: uppercase each character. -/
def strUpper (s : String) : String := ⟨s.data.map Char.toUpper⟩

/-! ## ffprobe stream documents -/

/-- One entry of the `streams` array of the ffprobe JSON document, restricted
to the fields the two source files read.  A missing string field is the empty
string (the source reads every field with `.get(key, '')`); `width`, `height`
and `bit_rate` default to `0`; `side_data_types` collects the
`side_data_type` value of each `side_data_list` entry. -/
structure FFStream where
  codec_type : String := ""
  lang : String := ""
  codec_name : String := ""
  width : Nat := 0
  height : Nat := 0
  bit_rate : Nat := 0
  color_transfer : String := ""
  color_space : String := ""
  side_data_types : List String := []
  deriving DecidableEq

/-- The result of one invocation of the external inspection tool. -/
inductive FfprobeOutcome where
  | exitNonzero
  | timeout
  | malformedOutput
  | ok (streams : List FFStream) (format_bit_rate : Nat)
  deriving DecidableEq

/-! ## `MediaQualityChecker.check_file_streams` (lines 225-281) -/

/-- The stream loop of `check_file_streams`: a stream qualifies when its
language tag, lowercased, is one of the configured English codes. -/
def checkStreamsFold (english_codes : List String) (streams : List FFStream) : Bool × Bool :=
  streams.foldl
    (fun acc s =>
      let language := strLower s.lang
      let hasA := if s.codec_type == "audio" && english_codes.contains language then true else acc.1
      let hasS := if s.codec_type == "subtitle" && english_codes.contains language then true else acc.2
      (hasA, hasS))
    (false, false)

/-- `check_file_streams(file_path)` as a function of the file's existence and
of the tool outcome.  Every failure path returns `(false, false)`. -/
def check_file_streams (file_exists : Bool) (outcome : FfprobeOutcome)
    (english_codes : List String) : Bool × Bool :=
  if !file_exists then (false, false)
  else
    match outcome with
    | .exitNonzero => (false, false)
    | .timeout => (false, false)
    | .malformedOutput => (false, false)
    | .ok streams _ => checkStreamsFold english_codes streams

/-! ## MediaProbe — `sonarr_ui_helper.probe_file` (lines 141-220) -/

/-- The `info` dict built by `probe_file`. -/
structure ProbeInfo where
  video_codec : String := ""
  video_resolution : String := ""
  video_bitrate : String := ""
  audio_codec : String := ""
  audio_bitrate : String := ""
  hdr : String := ""
  audio_langs : List String := []
  sub_langs : List String := []
  size_bytes : Nat := 0
  deriving DecidableEq

/-- One value of the persisted probe cache.  `hasVideoResolutionField` models
the `'video_resolution' in cached` key-presence test (entries written by an
older schema may lack the key); every entry written by `probe_file` has it. -/
structure ProbeCacheEntry where
  info : ProbeInfo
  hasVideoResolutionField : Bool
  deriving DecidableEq

/-- The probe cache dict, as an association list; an update shadows the
previous binding. -/
def ProbeCache := List (String × ProbeCacheEntry)

instance : DecidableEq ProbeCache := by unfold ProbeCache; infer_instance

def ProbeCache.lookup (c : ProbeCache) (k : String) : Option ProbeCacheEntry :=
  List.lookup k c

def ProbeCache.store (c : ProbeCache) (k : String) (v : ProbeCacheEntry) : ProbeCache :=
  (k, v) :: c

/-- HDR classification of one video stream (lines 185-199). -/
def hdrLabel (s : FFStream) : String :=
  let has_hdr_transfer := s.color_transfer == "smpte2084" || s.color_transfer == "arib-std-b67"
  let has_hdr_space := s.color_space == "bt2020nc" || s.color_space == "bt2020c"
  let has_dovi :=
    if s.side_data_types.isEmpty then false
    else s.side_data_types.any
      (fun t => t == "DOVI configuration record" || t == "Dolby Vision configuration")
  if has_dovi then "DV"
  else if has_hdr_transfer || has_hdr_space then "HDR"
  else "SDR"

/-- The body of the stream loop of `probe_file` (lines 173-210).  Note the
video branch is only taken while `info.video_codec` is still empty, the
audio/subtitle branches append the language tag verbatim when nonempty. -/
def updateStream (info : ProbeInfo) (s : FFStream) : ProbeInfo :=
  if s.codec_type == "video" && info.video_codec == "" then
    let info := { info with video_codec := strUpper s.codec_name }
    let info :=
      if s.width != 0 && s.height != 0 then
        { info with video_resolution := toString s.width ++ "x" ++ toString s.height }
      else info
    let info :=
      if s.bit_rate != 0 then
        { info with video_bitrate := toString (s.bit_rate / 1000) ++ " kbps" }
      else info
    { info with hdr := hdrLabel s }
  else if s.codec_type == "audio" then
    let info :=
      if info.audio_codec == "" then
        let info := { info with audio_codec := strUpper s.codec_name }
        if s.bit_rate != 0 then
          { info with audio_bitrate := toString (s.bit_rate / 1000) ++ " kbps" }
        else info
      else info
    if s.lang != "" then { info with audio_langs := info.audio_langs ++ [s.lang] } else info
  else if s.codec_type == "subtitle" then
    if s.lang != "" then { info with sub_langs := info.sub_langs ++ [s.lang] } else info
  else info

/-- `probe_file(file_path)`.  Arguments: `fs_size` is the `os.path.getsize`
result (`none` = `OSError`, leaving `size_bytes = 0`), `cache` the in-memory
probe cache, `outcome` what the external tool would produce for this path.
Returns the info dict, the cache after the call, and the number of tool
invocations performed.  A non-zero exit returns the empty record *without*
storing it (the early `return info` at line 170-171 precedes the store at
line 219); a timeout or malformed output raises, is swallowed by
`except Exception: pass`, and the (empty) record *is* stored. -/
def probe_file (fs_size : Option Nat) (cache : ProbeCache) (outcome : FfprobeOutcome)
    (file_path : String) : ProbeInfo × ProbeCache × Nat :=
  let base : ProbeInfo := { size_bytes := fs_size.getD 0 }
  let cachedHit : Option ProbeCacheEntry :=
    match cache.lookup file_path with
    | some c =>
      if c.info.size_bytes == base.size_bytes && c.hasVideoResolutionField then some c else none
    | none => none
  match cachedHit with
  | some c => (c.info, cache, 0)
  | none =>
    match outcome with
    | .exitNonzero => (base, cache, 1)
    | .timeout => (base, cache.store file_path ⟨base, true⟩, 1)
    | .malformedOutput => (base, cache.store file_path ⟨base, true⟩, 1)
    | .ok streams format_bit_rate =>
      let info := streams.foldl updateStream base
      let info :=
        if info.video_bitrate == "" && format_bit_rate != 0 then
          { info with video_bitrate := toString (format_bit_rate / 1000) ++ " kbps" }
        else info
      (info, cache.store file_path ⟨info, true⟩, 1)

/-! ## ReleaseSelector — releases and ranking
(`MediaQualityChecker.display_releases_and_select`, lines 336-456) -/

/-- A candidate release, restricted to the fields the source reads.
`qualityId` flattens `release['quality']['quality']['id']` (default `0`);
`guid = ""` models a missing/falsy guid, `indexerId = none` a missing one. -/
structure Release where
  guid : String := ""
  indexerId : Option Int := none
  title : String := ""
  size : Int := 0
  qualityId : Int := 0
  indexer : String := ""
  deriving DecidableEq

/-- The order induced by the Python sort key `(-quality_score, -size)`:
quality id descending, then size descending. -/
def releaseOrder (a b : Release) : Prop :=
  b.qualityId < a.qualityId ∨ (a.qualityId = b.qualityId ∧ b.size ≤ a.size)

instance : DecidableRel releaseOrder := fun a b => by
  unfold releaseOrder; infer_instance

instance : IsTotal Release releaseOrder :=
  ⟨fun a b => by unfold releaseOrder; omega⟩

instance : IsTrans Release releaseOrder :=
  ⟨fun a b c => by unfold releaseOrder; omega⟩

/-- `sorted(releases, key=sort_key)` (lines 342-354).  Python's `sorted` is a
stable sort; `List.insertionSort` is the stable sort of the library, so the
two agree on every input. -/
def rank (releases : List Release) : List Release :=
  releases.insertionSort releaseOrder

/-! ## VerificationCache — good / skipped file sets
(`_add_good_file` lines 185-189, `_add_skipped_file` lines 191-195) -/

/-- The in-memory cache state: for each of the two caches, the membership set
(`_good_files_set` / `_skipped_files_set`) and the JSON-backed list that is
persisted on `save_caches` (`files_cache['good_files']` /
`user_cache['skipped_files']`). -/
structure CacheState where
  goodSet : List String := []
  goodList : List String := []
  skippedSet : List String := []
  skippedList : List String := []
  deriving DecidableEq

/-- `MediaQualityChecker._add_good_file`. -/
def add_good_file (st : CacheState) (file_path : String) : CacheState :=
  if st.goodSet.contains file_path then st
  else { st with goodSet := file_path :: st.goodSet, goodList := st.goodList ++ [file_path] }

/-- `MediaQualityChecker._add_skipped_file`. -/
def add_skipped_file (st : CacheState) (file_path : String) : CacheState :=
  if st.skippedSet.contains file_path then st
  else { st with skippedSet := file_path :: st.skippedSet,
                 skippedList := st.skippedList ++ [file_path] }

/-! ## Recorded external effects -/

/-- An HTTP request to the Sonarr/Radarr API. -/
inductive ApiCall where
  | deleteFile (file_id : Nat)
  | downloadRelease (guid : String) (indexer_id : Int)
  | searchCommand (command_name : String) (ids : List Nat)
  | fetchEpisodes (series_id : Nat)
  | fetchReleases (entity_id : Nat)
  deriving DecidableEq

/-- Calls that mutate external library state (delete / download / search);
`fetchEpisodes` and `fetchReleases` are reads. -/
def ApiCall.isMutating : ApiCall → Bool
  | .deleteFile _ => true
  | .downloadRelease _ _ => true
  | .searchCommand _ _ => true
  | .fetchEpisodes _ => false
  | .fetchReleases _ => false

/-- Effects recorded while processing one file: API calls issued (in order),
number of `save_caches` invocations (cache-file writes), number of ffprobe
invocations, and decision-relevant console reports. -/
structure Effects where
  apiCalls : List ApiCall := []
  cacheSaves : Nat := 0
  probes : Nat := 0
  messages : List String := []
  deriving DecidableEq

instance : Append Effects :=
  ⟨fun a b => ⟨a.apiCalls ++ b.apiCalls, a.cacheSaves + b.cacheSaves,
               a.probes + b.probes, a.messages ++ b.messages⟩⟩

/-! ## Interactive release selection (lines 336-456) -/

/-- One answer the operator gives at the selection prompt: a filter term
(the `'s'` input followed by the term line), clearing the filter (`'c'`),
an integer choice, or an unparsable line. -/
inductive SelCmd where
  | searchTerm (t : String)
  | clearTerm
  | choice (n : Int)
  | invalid
  deriving DecidableEq

def SelCmd.isSkipChoice : SelCmd → Bool
  | .choice n => n == 0
  | _ => false

/-- Byte-wise prefix test on character lists. -/
def charsPre : List Char → List Char → Bool
  | [], _ => true
  | _ :: _, [] => false
  | n :: ns, h :: hs => n == h && charsPre ns hs

/-- Substring occurrence on character lists. -/
def charsSub (needle : List Char) : List Char → Bool
  | [] => charsPre needle []
  | h :: hs => charsPre needle (h :: hs) || charsSub needle hs

/-- Python's `needle in hay` on strings. -/
def strContainsSub (hay needle : String) : Bool :=
  charsSub needle.toList hay.toList

/-- The case-insensitive free-text title filter (lines 379-385). -/
def selectFiltered (releases : List Release) (term : String) : List Release :=
  if term == "" then releases
  else releases.filter (fun r => strContainsSub (strLower r.title) (strLower term))

/-- The prompt loop of `display_releases_and_select` (lines 365-456), driven
by the list of operator commands; an exhausted command list models the
`KeyboardInterrupt` path (keep current file, return `None`).  Choice `0`
marks the file to skip permanently and writes the caches; choice `-1` keeps
the current file; an in-range choice returns that filtered release. -/
def selectLoop (st : CacheState) (releases : List Release) (file_path : String) :
    String → List SelCmd → Option Release × CacheState × Effects
  | _, [] => (none, st, {})
  | term, cmd :: rest =>
    let filtered := selectFiltered releases term
    if filtered.isEmpty then selectLoop st releases file_path "" rest
    else
      match cmd with
      | .searchTerm t => selectLoop st releases file_path t rest
      | .clearTerm => selectLoop st releases file_path "" rest
      | .invalid => selectLoop st releases file_path term rest
      | .choice n =>
        if n == -1 then (none, st, {})
        else if n == 0 then
          (none, add_skipped_file st file_path,
            { cacheSaves := 1, messages := ["Marked to skip permanently"] })
        else if 1 ≤ n ∧ n ≤ (filtered.length : Int) then
          (filtered.get? (n - 1).toNat, st, {})
        else selectLoop st releases file_path term rest

/-- `display_releases_and_select` (lines 336-456): empty release list returns
`None`; otherwise rank and run the prompt loop with no initial filter. -/
def display_releases_and_select (st : CacheState) (releases : List Release)
    (file_path : String) (cmds : List SelCmd) : Option Release × CacheState × Effects :=
  if releases.isEmpty then (none, st, {})
  else selectLoop st (rank releases) file_path "" cmds

/-- `download_release` (lines 458-490): posts the `(guid, indexerId)` pair
unless either is missing. -/
def download_release (r : Release) : Effects :=
  match r.indexerId with
  | none => { messages := ["Invalid release data"] }
  | some iid =>
    if r.guid == "" then { messages := ["Invalid release data"] }
    else { apiCalls := [.downloadRelease r.guid iid] }

/-! ## Per-file pipeline (`process_sonarr` lines 534-639,
`process_radarr` lines 663-769) -/

/-- How the run disposed of one file. -/
inductive FileOutcome where
  | fieldMissing
  | alreadyGood
  | previouslySkipped
  | reacquired
  | wouldReacquire
  | keptCurrent
  | searchTriggered
  | wouldDeleteAndSearch
  | noEpisodeIds
  | skipDeclined
  | markedGood
  deriving DecidableEq

/-- Result of processing one file: cache state after the step, recorded
effects, and the outcome. -/
structure StepResult where
  state : CacheState
  effects : Effects
  outcome : FileOutcome
  deriving DecidableEq

/-- The per-episode-file body of `process_sonarr` (lines 534-639).
`episode_ids` is what `get_episodes_for_file` would return, `releases` what
`get_episode_releases` would return, `view_alternatives` the answer to the
`Confirm.ask` prompt, `cmds` the release-picker input. -/
def process_sonarr_file (st : CacheState) (interactive dry_run require_audio require_subs : Bool)
    (english_codes : List String) (file_path : String) (file_id series_id : Nat)
    (file_exists : Bool) (outcome : FfprobeOutcome) (episode_ids : List Nat)
    (releases : List Release) (view_alternatives : Bool) (cmds : List SelCmd) : StepResult :=
  if st.goodSet.contains file_path then ⟨st, {}, .alreadyGood⟩
  else
    let streams := check_file_streams file_exists outcome english_codes
    let probeEff : Effects := { probes := 1 }
    if should_redownload require_audio require_subs streams.1 streams.2 then
      if st.skippedSet.contains file_path then ⟨st, probeEff, .previouslySkipped⟩
      else if interactive then
        let epEff : Effects := { apiCalls := [.fetchEpisodes series_id] }
        if episode_ids.isEmpty then ⟨st, probeEff ++ epEff, .noEpisodeIds⟩
        else if view_alternatives then
          let relEff : Effects := { apiCalls := [.fetchReleases (episode_ids.headD 0)] }
          let sel := display_releases_and_select st releases file_path cmds
          match sel.1 with
          | some r =>
            if !dry_run then
              ⟨sel.2.1,
               probeEff ++ epEff ++ relEff ++ sel.2.2
                 ++ { apiCalls := [.deleteFile file_id] } ++ download_release r,
               .reacquired⟩
            else
              ⟨sel.2.1,
               probeEff ++ epEff ++ relEff ++ sel.2.2
                 ++ { messages := ["DRY RUN: Would download selected release"] },
               .wouldReacquire⟩
          | none => ⟨sel.2.1, probeEff ++ epEff ++ relEff ++ sel.2.2, .keptCurrent⟩
        else
          ⟨add_skipped_file st file_path,
           probeEff ++ epEff ++ { cacheSaves := 1, messages := ["Marked to skip permanently"] },
           .skipDeclined⟩
      else if !dry_run then
        ⟨st,
         probeEff ++ { apiCalls := [.deleteFile file_id] }
           ++ { apiCalls := [.fetchEpisodes series_id] }
           ++ (if episode_ids.isEmpty then {}
               else { apiCalls := [.searchCommand "EpisodeSearch" episode_ids] }),
         .searchTriggered⟩
      else
        ⟨st, probeEff ++ { messages := ["[DRY RUN] Would delete and re-download"] },
         .wouldDeleteAndSearch⟩
    else
      ⟨add_good_file st file_path, probeEff ++ { cacheSaves := 1 }, .markedGood⟩

/-- The per-movie body of `process_radarr` (lines 663-769).  Movies without a
file are skipped; the structure mirrors the Sonarr pipeline, with the search
command `MoviesSearch` on the movie id and no episode-id fetch. -/
def process_radarr_file (st : CacheState) (interactive dry_run require_audio require_subs : Bool)
    (english_codes : List String) (has_file : Bool) (file_path : String) (file_id movie_id : Nat)
    (file_exists : Bool) (outcome : FfprobeOutcome) (releases : List Release)
    (view_alternatives : Bool) (cmds : List SelCmd) : StepResult :=
  if !has_file then ⟨st, {}, .fieldMissing⟩
  else if st.goodSet.contains file_path then ⟨st, {}, .alreadyGood⟩
  else
    let streams := check_file_streams file_exists outcome english_codes
    let probeEff : Effects := { probes := 1 }
    if should_redownload require_audio require_subs streams.1 streams.2 then
      if st.skippedSet.contains file_path then ⟨st, probeEff, .previouslySkipped⟩
      else if interactive then
        if view_alternatives then
          let relEff : Effects := { apiCalls := [.fetchReleases movie_id] }
          let sel := display_releases_and_select st releases file_path cmds
          match sel.1 with
          | some r =>
            if !dry_run then
              ⟨sel.2.1,
               probeEff ++ relEff ++ sel.2.2
                 ++ { apiCalls := [.deleteFile file_id] } ++ download_release r,
               .reacquired⟩
            else
              ⟨sel.2.1,
               probeEff ++ relEff ++ sel.2.2
                 ++ { messages := ["DRY RUN: Would download selected release"] },
               .wouldReacquire⟩
          | none => ⟨sel.2.1, probeEff ++ relEff ++ sel.2.2, .keptCurrent⟩
        else
          ⟨add_skipped_file st file_path,
           probeEff ++ { cacheSaves := 1, messages := ["Marked to skip permanently"] },
           .skipDeclined⟩
      else if !dry_run then
        ⟨st,
         probeEff ++ { apiCalls := [.deleteFile file_id] }
           ++ { apiCalls := [.searchCommand "MoviesSearch" [movie_id]] },
         .searchTriggered⟩
      else
        ⟨st, probeEff ++ { messages := ["[DRY RUN] Would delete and re-download"] },
         .wouldDeleteAndSearch⟩
    else
      ⟨add_good_file st file_path, probeEff ++ { cacheSaves := 1 }, .markedGood⟩

/-! ## Theorems -/

/-- C1: `should_redownload` computes
`(requireAudio ∧ ¬hasQualifyingAudio) ∨ (requireSubtitle ∧ ¬hasQualifyingSubtitle)`;
being a function of its four Boolean arguments it is pure and deterministic,
and with both policy flags false it returns false on every input. -/
theorem should_redownload_spec :
    (∀ require_audio require_subs has_eng_audio has_eng_subs : Bool,
        should_redownload require_audio require_subs has_eng_audio has_eng_subs
          = ((require_audio && !has_eng_audio) || (require_subs && !has_eng_subs)))
    ∧ (∀ has_eng_audio has_eng_subs : Bool,
        should_redownload false false has_eng_audio has_eng_subs = false) := by
  constructor <;> decide

/-- C6: every failing probe — missing file, non-zero exit, timeout, malformed
output — yields the stream-check result `(false, false)` and (for
`probe_file`) the empty record with only the size set; with
`requireAudio = true` the decision function then returns `true`. -/
theorem probe_failure_spec :
    ∀ (english_codes : List String) (require_subs : Bool) (outc : FfprobeOutcome)
      (sz : Nat) (p : String),
      check_file_streams false outc english_codes = (false, false)
      ∧ check_file_streams true .exitNonzero english_codes = (false, false)
      ∧ check_file_streams true .timeout english_codes = (false, false)
      ∧ check_file_streams true .malformedOutput english_codes = (false, false)
      ∧ (probe_file (some sz) ([] : ProbeCache) .exitNonzero p).1 = { size_bytes := sz }
      ∧ (probe_file (some sz) ([] : ProbeCache) .timeout p).1 = { size_bytes := sz }
      ∧ (probe_file (some sz) ([] : ProbeCache) .malformedOutput p).1 = { size_bytes := sz }
      ∧ should_redownload true require_subs false false = true := by
  intro english_codes require_subs outc sz p
  exact ⟨rfl, rfl, rfl, rfl, rfl, rfl, rfl, rfl⟩

/-- C3: a cache entry for the path whose stored size equals the current
on-disk size and whose required field is present is returned without any tool
invocation; a stored size different from the current size is stale and the
tool runs exactly once. -/
theorem probe_cache_hit_spec :
    (∀ (sz : Nat) (cache : ProbeCache) (outc : FfprobeOutcome) (p : String)
        (c : ProbeCacheEntry),
        cache.lookup p = some c → c.hasVideoResolutionField = true →
        c.info.size_bytes = sz →
        probe_file (some sz) cache outc p = (c.info, cache, 0))
    ∧ (∀ (sz : Nat) (cache : ProbeCache) (outc : FfprobeOutcome) (p : String)
        (c : ProbeCacheEntry),
        cache.lookup p = some c → c.info.size_bytes ≠ sz →
        (probe_file (some sz) cache outc p).2.2 = 1) := by
  constructor
  · intro sz cache outc p c h1 h2 h3
    simp [probe_file, h1, h2, h3]
  · intro sz cache outc p c h1 h2
    cases outc <;> simp [probe_file, h1, h2]

/-- Witness for `probe_cache_hit_spec` at a concrete cache. -/
theorem probe_cache_hit_witness :
    probe_file (some 7) ([("/x", ⟨{ size_bytes := 7 }, true⟩)] : ProbeCache) .exitNonzero "/x"
      = ({ size_bytes := 7 }, [("/x", ⟨{ size_bytes := 7 }, true⟩)], 0)
    ∧ (probe_file (some 9) ([("/x", ⟨{ size_bytes := 7 }, true⟩)] : ProbeCache)
        .exitNonzero "/x").2.2 = 1 :=
  ⟨probe_cache_hit_spec.1 7 _ _ "/x" ⟨{ size_bytes := 7 }, true⟩ (by decide) rfl rfl,
   probe_cache_hit_spec.2 9 _ _ "/x" ⟨{ size_bytes := 7 }, true⟩ (by decide) (by decide)⟩

/-- C4 counterexample: a fresh probe that exits non-zero is *not* stored in
the probe cache — `probe_file` returns early (line 170-171 of
`sonarr_ui_helper.py`) before the store at line 219, so the cache is
unchanged although the tool ran once. -/
theorem probe_store_cex :
    ((probe_file (some 5) ([] : ProbeCache) .exitNonzero "/x").2.1).lookup "/x" = none
    ∧ (probe_file (some 5) ([] : ProbeCache) .exitNonzero "/x").2.2 = 1 := by
  exact ⟨rfl, rfl⟩

/-- C4 amended: after every fresh probe — whether the path had no cache
entry at all, or an entry stale in size, or an entry missing the required
field — the resulting record is stored in the probe cache under the path
when the tool run succeeds, times out, or produces malformed output; a
non-zero exit code returns the empty record without storing it. -/
theorem probe_store_amended :
    (∀ (sz : Nat) (cache : ProbeCache) (p : String) (streams : List FFStream) (fbr : Nat),
        (∀ c, cache.lookup p = some c →
          c.info.size_bytes ≠ sz ∨ c.hasVideoResolutionField = false) →
        ((probe_file (some sz) cache (.ok streams fbr) p).2.1).lookup p
          = some ⟨(probe_file (some sz) cache (.ok streams fbr) p).1, true⟩)
    ∧ (∀ (sz : Nat) (cache : ProbeCache) (p : String),
        (∀ c, cache.lookup p = some c →
          c.info.size_bytes ≠ sz ∨ c.hasVideoResolutionField = false) →
        ((probe_file (some sz) cache .timeout p).2.1).lookup p
          = some ⟨(probe_file (some sz) cache .timeout p).1, true⟩)
    ∧ (∀ (sz : Nat) (cache : ProbeCache) (p : String),
        (∀ c, cache.lookup p = some c →
          c.info.size_bytes ≠ sz ∨ c.hasVideoResolutionField = false) →
        ((probe_file (some sz) cache .malformedOutput p).2.1).lookup p
          = some ⟨(probe_file (some sz) cache .malformedOutput p).1, true⟩)
    ∧ (∀ (sz : Nat) (cache : ProbeCache) (p : String),
        (∀ c, cache.lookup p = some c →
          c.info.size_bytes ≠ sz ∨ c.hasVideoResolutionField = false) →
        (probe_file (some sz) cache .exitNonzero p).2.1 = cache) := by
  have key : ∀ (sz : Nat) (cache : ProbeCache) (p : String) (c : ProbeCacheEntry),
      cache.lookup p = some c →
      (c.info.size_bytes ≠ sz ∨ c.hasVideoResolutionField = false) →
      (c.info.size_bytes == sz && c.hasVideoResolutionField) = false := by
    intro sz cache p c _ hc
    rcases hc with h | h
    · simp [h]
    · simp [h]
  refine ⟨?_, ?_, ?_, ?_⟩ <;>
    · intro sz cache p
      first
        | (intro streams fbr hmiss)
        | (intro hmiss)
      cases hl : cache.lookup p with
      | none =>
        unfold ProbeCache.lookup at hl
        simp [probe_file, hl, ProbeCache.store, ProbeCache.lookup, List.lookup_cons_self]
      | some c =>
        have hcond := key sz cache p c hl (hmiss c hl)
        unfold ProbeCache.lookup at hl
        simp [probe_file, hl, hcond, ProbeCache.store, ProbeCache.lookup,
              List.lookup_cons_self]

/-- Witness for `probe_store_amended`: a first probe on an empty cache, a
re-probe of a stale entry (stored size 7, current size 9) that overwrites
it, and a stale re-probe with non-zero exit that stores nothing. -/
theorem probe_store_amended_witness :
    ((probe_file (some 5) ([] : ProbeCache) .timeout "/x").2.1).lookup "/x"
      = some ⟨(probe_file (some 5) ([] : ProbeCache) .timeout "/x").1, true⟩
    ∧ ((probe_file (some 9) ([("/x", ⟨{ size_bytes := 7 }, true⟩)] : ProbeCache)
          .malformedOutput "/x").2.1).lookup "/x"
      = some ⟨(probe_file (some 9) ([("/x", ⟨{ size_bytes := 7 }, true⟩)] : ProbeCache)
          .malformedOutput "/x").1, true⟩
    ∧ (probe_file (some 9) ([("/x", ⟨{ size_bytes := 7 }, true⟩)] : ProbeCache)
          .exitNonzero "/x").2.1 = [("/x", ⟨{ size_bytes := 7 }, true⟩)] :=
  ⟨probe_store_amended.2.1 5 [] "/x" (fun c hc => by simp [ProbeCache.lookup] at hc),
   probe_store_amended.2.2.1 9 _ "/x" (fun c hc => by
      have hce : (⟨{ size_bytes := 7 }, true⟩ : ProbeCacheEntry) = c := by
        simpa [ProbeCache.lookup, List.lookup] using hc
      subst hce
      left
      decide),
   probe_store_amended.2.2.2 9 _ "/x" (fun c hc => by
      have hce : (⟨{ size_bytes := 7 }, true⟩ : ProbeCacheEntry) = c := by
        simpa [ProbeCache.lookup, List.lookup] using hc
      subst hce
      left
      decide)⟩

/-- C9: `markGood`/`markSkipped` are idempotent — re-adding an
already-present path is a no-op, and adding a path twice to a cache that did
not contain it leaves exactly one occurrence in the persisted list. -/
theorem mark_idempotent_spec :
    (∀ (st : CacheState) (p : String),
        st.goodSet.contains p = true → add_good_file st p = st)
    ∧ (∀ (st : CacheState) (p : String),
        st.skippedSet.contains p = true → add_skipped_file st p = st)
    ∧ (∀ (st : CacheState) (p : String),
        add_good_file (add_good_file st p) p = add_good_file st p)
    ∧ (∀ (st : CacheState) (p : String),
        add_skipped_file (add_skipped_file st p) p = add_skipped_file st p)
    ∧ (∀ (st : CacheState) (p : String),
        st.goodSet.contains p = false → st.goodList.count p = 0 →
        (add_good_file (add_good_file st p) p).goodList.count p = 1)
    ∧ (∀ (st : CacheState) (p : String),
        st.skippedSet.contains p = false → st.skippedList.count p = 0 →
        (add_skipped_file (add_skipped_file st p) p).skippedList.count p = 1) := by
  refine ⟨?_, ?_, ?_, ?_, ?_, ?_⟩
  · intro st p h
    have h' : p ∈ st.goodSet := by simpa using h
    simp [add_good_file, h']
  · intro st p h
    have h' : p ∈ st.skippedSet := by simpa using h
    simp [add_skipped_file, h']
  · intro st p
    by_cases h : p ∈ st.goodSet <;> simp [add_good_file, h]
  · intro st p
    by_cases h : p ∈ st.skippedSet <;> simp [add_skipped_file, h]
  · intro st p h1 h2
    have h1' : p ∉ st.goodSet := by simpa using h1
    simp [add_good_file, h1', List.count_append, h2]
  · intro st p h1 h2
    have h1' : p ∉ st.skippedSet := by simpa using h1
    simp [add_skipped_file, h1', List.count_append, h2]

/-- Witness for `mark_idempotent_spec` at concrete cache states. -/
theorem mark_idempotent_witness :
    add_good_file ⟨["/a"], ["/a"], [], []⟩ "/a" = ⟨["/a"], ["/a"], [], []⟩
    ∧ (add_good_file (add_good_file ({} : CacheState) "/a") "/a").goodList.count "/a" = 1
    ∧ (add_skipped_file (add_skipped_file ({} : CacheState) "/a") "/a").skippedList.count "/a"
        = 1 :=
  ⟨mark_idempotent_spec.1 _ "/a" (by decide),
   mark_idempotent_spec.2.2.2.2.1 _ "/a" (by decide) (by decide),
   mark_idempotent_spec.2.2.2.2.2 _ "/a" (by decide) (by decide)⟩

/-- C5: `rank` sorts by quality-tier id descending, then size descending
(every release is `releaseOrder`-before every later one in the output), it is
stable (a key-tied pair keeps its input order), and the three-release
scenario of the spec ranks as stated. -/
theorem rank_spec :
    (∀ rs : List Release, (rank rs).Pairwise releaseOrder)
    ∧ (∀ (rs : List Release) (a b : Release),
        a.qualityId = b.qualityId → a.size = b.size →
        List.Sublist [a, b] rs → List.Sublist [a, b] (rank rs))
    ∧ rank [{ qualityId := 5, size := 10 }, { qualityId := 5, size := 20 },
            { qualityId := 8, size := 1 }]
        = [{ qualityId := 8, size := 1 }, { qualityId := 5, size := 20 },
           { qualityId := 5, size := 10 }] := by
  refine ⟨fun rs => List.sorted_insertionSort releaseOrder rs, ?_, by decide⟩
  intro rs a b h1 h2 hsub
  exact List.pair_sublist_insertionSort (Or.inr ⟨h1, h2 ▸ le_refl _⟩) hsub

/-- Witness for `rank_spec`: a tied pair stays in input order behind the
higher-quality release. -/
theorem rank_spec_witness :
    List.Sublist
      [({ title := "A", qualityId := 5, size := 20 } : Release),
       { title := "B", qualityId := 5, size := 20 }]
      (rank [{ qualityId := 9 }, { title := "A", qualityId := 5, size := 20 },
             { title := "B", qualityId := 5, size := 20 }]) :=
  rank_spec.2.1 _ _ _ rfl rfl ((List.Sublist.refl _).cons _)

/-! ### Helper lemmas about the `probe_file` stream fold -/

theorem updateStream_audio_langs (info : ProbeInfo) (s : FFStream) :
    (updateStream info s).audio_langs
      = info.audio_langs
        ++ (if s.codec_type == "audio" && s.lang != "" then [s.lang] else []) := by
  unfold updateStream
  split_ifs <;> simp_all

theorem updateStream_sub_langs (info : ProbeInfo) (s : FFStream) :
    (updateStream info s).sub_langs
      = info.sub_langs
        ++ (if s.codec_type == "subtitle" && s.lang != "" then [s.lang] else []) := by
  unfold updateStream
  split_ifs <;> simp_all

theorem updateStream_stable (info : ProbeInfo) (s : FFStream) (h : info.video_codec ≠ "") :
    (updateStream info s).hdr = info.hdr
    ∧ (updateStream info s).video_codec = info.video_codec := by
  unfold updateStream
  split_ifs <;> simp_all

theorem updateStream_video (info : ProbeInfo) (s : FFStream)
    (h : (s.codec_type == "video" && info.video_codec == "") = true) :
    (updateStream info s).hdr = hdrLabel s
    ∧ (updateStream info s).video_codec = strUpper s.codec_name := by
  unfold updateStream
  split_ifs <;> simp_all

theorem updateStream_nonvideo (info : ProbeInfo) (s : FFStream)
    (h : (s.codec_type == "video") = false) :
    (updateStream info s).video_codec = info.video_codec := by
  unfold updateStream
  split_ifs <;> simp_all

theorem strUpper_eq_empty_iff (s : String) : strUpper s = "" ↔ s = "" := by
  constructor
  · intro h
    have hd := String.ext_iff.mp h
    simp [strUpper] at hd
    exact String.ext_iff.mpr (by simp [hd])
  · intro h; subst h; rfl

theorem foldl_hdr_stable : ∀ (streams : List FFStream) (info : ProbeInfo),
    info.video_codec ≠ "" → (streams.foldl updateStream info).hdr = info.hdr := by
  intro streams
  induction streams with
  | nil => intro info _; rfl
  | cons s rest ih =>
    intro info h
    have hs := updateStream_stable info s h
    simp only [List.foldl_cons]
    rw [ih _ (by rw [hs.2]; exact h), hs.1]

theorem foldl_hdr_first_video : ∀ (streams : List FFStream) (info : ProbeInfo) (v : FFStream),
    info.video_codec = "" →
    streams.find? (fun s => s.codec_type == "video") = some v →
    v.codec_name ≠ "" →
    (streams.foldl updateStream info).hdr = hdrLabel v := by
  intro streams
  induction streams with
  | nil => intro info v _ hf _; simp at hf
  | cons s rest ih =>
    intro info v h0 hf hv
    rw [List.find?_cons] at hf
    cases hp : (s.codec_type == "video") with
    | true =>
      rw [hp] at hf
      simp at hf
      subst hf
      have hcond : (s.codec_type == "video" && info.video_codec == "") = true := by
        simp [hp, h0]
      have hu := updateStream_video info s hcond
      simp only [List.foldl_cons]
      rw [foldl_hdr_stable rest _ (by rw [hu.2]; simpa [strUpper_eq_empty_iff] using hv), hu.1]
    | false =>
      rw [hp] at hf
      simp only [List.foldl_cons]
      exact ih _ v (by rw [updateStream_nonvideo info s hp]; exact h0) hf hv

theorem foldl_audio_langs : ∀ (streams : List FFStream) (info : ProbeInfo),
    (streams.foldl updateStream info).audio_langs
      = info.audio_langs
        ++ streams.filterMap
            (fun s => if s.codec_type == "audio" && s.lang != "" then some s.lang else none) := by
  intro streams
  induction streams with
  | nil => simp
  | cons s rest ih =>
    intro info
    simp only [List.foldl_cons, List.filterMap_cons]
    rw [ih, updateStream_audio_langs]
    by_cases h : (s.codec_type == "audio" && s.lang != "") = true <;> simp [h]

theorem foldl_sub_langs : ∀ (streams : List FFStream) (info : ProbeInfo),
    (streams.foldl updateStream info).sub_langs
      = info.sub_langs
        ++ streams.filterMap
            (fun s => if s.codec_type == "subtitle" && s.lang != "" then some s.lang else none) := by
  intro streams
  induction streams with
  | nil => simp
  | cons s rest ih =>
    intro info
    simp only [List.foldl_cons, List.filterMap_cons]
    rw [ih, updateStream_sub_langs]
    by_cases h : (s.codec_type == "subtitle" && s.lang != "") = true <;> simp [h]

theorem probe_file_ok_hdr (sz fbr : Nat) (p : String) (streams : List FFStream) :
    (probe_file (some sz) ([] : ProbeCache) (.ok streams fbr) p).1.hdr
      = (streams.foldl updateStream { size_bytes := sz }).hdr := by
  simp only [probe_file, ProbeCache.lookup, List.lookup, Option.getD]
  split <;> rfl

theorem probe_file_ok_audio_langs (sz fbr : Nat) (p : String) (streams : List FFStream) :
    (probe_file (some sz) ([] : ProbeCache) (.ok streams fbr) p).1.audio_langs
      = (streams.foldl updateStream { size_bytes := sz }).audio_langs := by
  simp only [probe_file, ProbeCache.lookup, List.lookup, Option.getD]
  split <;> rfl

theorem probe_file_ok_sub_langs (sz fbr : Nat) (p : String) (streams : List FFStream) :
    (probe_file (some sz) ([] : ProbeCache) (.ok streams fbr) p).1.sub_langs
      = (streams.foldl updateStream { size_bytes := sz }).sub_langs := by
  simp only [probe_file, ProbeCache.lookup, List.lookup, Option.getD]
  split <;> rfl

/-- C7 counterexample: with a first video stream carrying Dolby-Vision side
data but an empty codec name, a second video stream is *not* ignored — the
`not info['video_codec']` guard re-admits it and its classification
overwrites the label, so the file ends up "SDR" although the first video
stream classifies as "DV". -/
theorem hdr_first_video_cex :
    (probe_file (some 1) ([] : ProbeCache)
        (.ok [{ codec_type := "video", side_data_types := ["DOVI configuration record"] },
              { codec_type := "video", codec_name := "h264" }] 0) "/x").1.hdr = "SDR"
    ∧ hdrLabel { codec_type := "video", side_data_types := ["DOVI configuration record"] }
        = "DV"
    ∧ (probe_file (some 1) ([] : ProbeCache)
        (.ok [{ codec_type := "video", side_data_types := ["DOVI configuration record"] },
              { codec_type := "video", codec_name := "h264" }] 0) "/x").1.hdr
        ≠ hdrLabel { codec_type := "video", side_data_types := ["DOVI configuration record"] } := by
  refine ⟨by decide, by decide, by decide⟩

/-- C7 amended: whenever the *first video stream* of the document has a
nonempty codec name, the HDR label is computed from that stream alone with
the stated DV → HDR → SDR precedence, and every later video stream is
ignored (the label equals `hdrLabel` of the first video stream, whatever
follows). -/
theorem hdr_first_video_amended :
    ∀ (streams : List FFStream) (v : FFStream) (fbr sz : Nat) (p : String),
      streams.find? (fun s => s.codec_type == "video") = some v →
      v.codec_name ≠ "" →
      (probe_file (some sz) ([] : ProbeCache) (.ok streams fbr) p).1.hdr = hdrLabel v := by
  intro streams v fbr sz p hf hv
  rw [probe_file_ok_hdr]
  exact foldl_hdr_first_video streams _ v rfl hf hv

/-- Witness for `hdr_first_video_amended` on a one-stream document. -/
theorem hdr_first_video_amended_witness :
    (probe_file (some 1) ([] : ProbeCache)
        (.ok [{ codec_type := "video", codec_name := "h264" }] 0) "/x").1.hdr
      = hdrLabel { codec_type := "video", codec_name := "h264" } :=
  hdr_first_video_amended _ _ 0 1 "/x" (by decide) (by decide)

/-- C8 counterexample: `probe_file` appends language tags verbatim — a stream
tagged "ENG" yields the list `["ENG"]`, which is not lowercased. -/
theorem probe_langs_cex :
    (probe_file (some 1) ([] : ProbeCache)
        (.ok [{ codec_type := "audio", lang := "ENG" }] 0) "/x").1.audio_langs = ["ENG"]
    ∧ ¬ (∀ l ∈ (probe_file (some 1) ([] : ProbeCache)
          (.ok [{ codec_type := "audio", lang := "ENG" }] 0) "/x").1.audio_langs,
          strLower l = l) := by
  refine ⟨by decide, by decide⟩

/-- C8 amended: the audio and subtitle language lists are exactly the
nonempty language tags of the audio (resp. subtitle) streams, *verbatim*
(not lowercased), in document order, duplicates included. -/
theorem probe_langs_amended :
    ∀ (streams : List FFStream) (fbr sz : Nat) (p : String),
      (probe_file (some sz) ([] : ProbeCache) (.ok streams fbr) p).1.audio_langs
        = streams.filterMap
            (fun s => if s.codec_type == "audio" && s.lang != "" then some s.lang else none)
      ∧ (probe_file (some sz) ([] : ProbeCache) (.ok streams fbr) p).1.sub_langs
        = streams.filterMap
            (fun s => if s.codec_type == "subtitle" && s.lang != "" then some s.lang else none)
      ∧ (probe_file (some 1) ([] : ProbeCache)
          (.ok [{ codec_type := "audio", lang := "eng" },
                { codec_type := "audio", lang := "eng" }] 0) "/x").1.audio_langs
          = ["eng", "eng"] := by
  intro streams fbr sz p
  refine ⟨?_, ?_, by decide⟩
  · rw [probe_file_ok_audio_langs, foldl_audio_langs]; rfl
  · rw [probe_file_ok_sub_langs, foldl_sub_langs]; rfl

/-! ### Helper lemmas about the selection loop and effects -/

theorem selectLoop_noApi : ∀ (cmds : List SelCmd) (st : CacheState) (releases : List Release)
    (p term : String),
    (selectLoop st releases p term cmds).2.2.apiCalls = []
    ∧ (selectLoop st releases p term cmds).2.2.probes = 0 := by
  intro cmds
  induction cmds with
  | nil => intro st releases p term; exact ⟨rfl, rfl⟩
  | cons c rest ih =>
    intro st releases p term
    by_cases hf : (selectFiltered releases term).isEmpty
    · simpa only [selectLoop, hf, if_true] using ih st releases p ""
    · cases c with
      | searchTerm t =>
        simpa only [selectLoop, hf, Bool.false_eq_true, if_false] using ih st releases p t
      | clearTerm =>
        simpa only [selectLoop, hf, Bool.false_eq_true, if_false] using ih st releases p ""
      | invalid =>
        simpa only [selectLoop, hf, Bool.false_eq_true, if_false] using ih st releases p term
      | choice n =>
        simp only [selectLoop, hf, Bool.false_eq_true, if_false]
        split_ifs <;> first
          | exact ⟨rfl, rfl⟩
          | exact ih st releases p term

theorem selectLoop_noSkip : ∀ (cmds : List SelCmd) (st : CacheState) (releases : List Release)
    (p term : String),
    cmds.all (fun c => !c.isSkipChoice) = true →
    (selectLoop st releases p term cmds).2.1 = st
    ∧ (selectLoop st releases p term cmds).2.2 = ({} : Effects) := by
  intro cmds
  induction cmds with
  | nil => intro st releases p term _; exact ⟨rfl, rfl⟩
  | cons c rest ih =>
    intro st releases p term hall
    rw [List.all_cons] at hall
    have hc := (Bool.and_eq_true _ _).mp hall
    by_cases hf : (selectFiltered releases term).isEmpty
    · simpa only [selectLoop, hf, if_true] using ih st releases p "" hc.2
    · cases c with
      | searchTerm t =>
        simpa only [selectLoop, hf, Bool.false_eq_true, if_false] using ih st releases p t hc.2
      | clearTerm =>
        simpa only [selectLoop, hf, Bool.false_eq_true, if_false] using ih st releases p "" hc.2
      | invalid =>
        simpa only [selectLoop, hf, Bool.false_eq_true, if_false] using ih st releases p term hc.2
      | choice n =>
        have hn : (n == 0) = false := by
          simpa [SelCmd.isSkipChoice] using hc.1
        simp only [selectLoop, hf, Bool.false_eq_true, if_false, hn]
        split_ifs <;> first
          | exact ⟨rfl, rfl⟩
          | exact ih st releases p term hc.2

theorem display_noApi (st : CacheState) (releases : List Release) (p : String)
    (cmds : List SelCmd) :
    (display_releases_and_select st releases p cmds).2.2.apiCalls = []
    ∧ (display_releases_and_select st releases p cmds).2.2.probes = 0 := by
  unfold display_releases_and_select
  split_ifs
  · exact ⟨rfl, rfl⟩
  · exact selectLoop_noApi cmds st (rank releases) p ""

theorem display_noSkip (st : CacheState) (releases : List Release) (p : String)
    (cmds : List SelCmd) (h : cmds.all (fun c => !c.isSkipChoice) = true) :
    (display_releases_and_select st releases p cmds).2.1 = st
    ∧ (display_releases_and_select st releases p cmds).2.2 = ({} : Effects) := by
  unfold display_releases_and_select
  split_ifs
  · exact ⟨rfl, rfl⟩
  · exact selectLoop_noSkip cmds st (rank releases) p "" h

theorem effects_append (a b : Effects) :
    a ++ b = ⟨a.apiCalls ++ b.apiCalls, a.cacheSaves + b.cacheSaves,
              a.probes + b.probes, a.messages ++ b.messages⟩ := rfl

/-- C10: a path present in both caches is treated as good — the good-set
check precedes the probe, so the file is skipped with no tool invocation, no
API call and no cache change (in both pipelines); and the skipped set is
consulted only after a failing verdict for paths not in the good set: a
passing verdict marks the file good even if it is in the skipped set, while
a failing verdict on a skipped path stops after the single probe. -/
theorem good_precedence_spec :
    (∀ (st : CacheState) (ia dr ra rs : Bool) (codes : List String) (p : String)
        (fid sid : Nat) (fe : Bool) (outc : FfprobeOutcome) (eids : List Nat)
        (rels : List Release) (va : Bool) (cmds : List SelCmd),
        st.goodSet.contains p = true → st.skippedSet.contains p = true →
        process_sonarr_file st ia dr ra rs codes p fid sid fe outc eids rels va cmds
          = ⟨st, {}, .alreadyGood⟩)
    ∧ (∀ (st : CacheState) (ia dr ra rs : Bool) (codes : List String) (p : String)
        (fid mid : Nat) (fe : Bool) (outc : FfprobeOutcome) (rels : List Release)
        (va : Bool) (cmds : List SelCmd),
        st.goodSet.contains p = true → st.skippedSet.contains p = true →
        process_radarr_file st ia dr ra rs codes true p fid mid fe outc rels va cmds
          = ⟨st, {}, .alreadyGood⟩)
    ∧ (∀ (st : CacheState) (ia dr ra rs : Bool) (codes : List String) (p : String)
        (fid sid : Nat) (fe : Bool) (outc : FfprobeOutcome) (eids : List Nat)
        (rels : List Release) (va : Bool) (cmds : List SelCmd),
        st.goodSet.contains p = false →
        should_redownload ra rs (check_file_streams fe outc codes).1
          (check_file_streams fe outc codes).2 = false →
        process_sonarr_file st ia dr ra rs codes p fid sid fe outc eids rels va cmds
          = ⟨add_good_file st p, { cacheSaves := 1, probes := 1 }, .markedGood⟩)
    ∧ (∀ (st : CacheState) (ia dr ra rs : Bool) (codes : List String) (p : String)
        (fid sid : Nat) (fe : Bool) (outc : FfprobeOutcome) (eids : List Nat)
        (rels : List Release) (va : Bool) (cmds : List SelCmd),
        st.goodSet.contains p = false →
        should_redownload ra rs (check_file_streams fe outc codes).1
          (check_file_streams fe outc codes).2 = true →
        st.skippedSet.contains p = true →
        process_sonarr_file st ia dr ra rs codes p fid sid fe outc eids rels va cmds
          = ⟨st, { probes := 1 }, .previouslySkipped⟩)
    ∧ (∀ (st : CacheState) (ia dr ra rs : Bool) (codes : List String) (p : String)
        (fid mid : Nat) (fe : Bool) (outc : FfprobeOutcome) (rels : List Release)
        (va : Bool) (cmds : List SelCmd),
        st.goodSet.contains p = false →
        should_redownload ra rs (check_file_streams fe outc codes).1
          (check_file_streams fe outc codes).2 = false →
        process_radarr_file st ia dr ra rs codes true p fid mid fe outc rels va cmds
          = ⟨add_good_file st p, { cacheSaves := 1, probes := 1 }, .markedGood⟩)
    ∧ (∀ (st : CacheState) (ia dr ra rs : Bool) (codes : List String) (p : String)
        (fid mid : Nat) (fe : Bool) (outc : FfprobeOutcome) (rels : List Release)
        (va : Bool) (cmds : List SelCmd),
        st.goodSet.contains p = false →
        should_redownload ra rs (check_file_streams fe outc codes).1
          (check_file_streams fe outc codes).2 = true →
        st.skippedSet.contains p = true →
        process_radarr_file st ia dr ra rs codes true p fid mid fe outc rels va cmds
          = ⟨st, { probes := 1 }, .previouslySkipped⟩) := by
  refine ⟨?_, ?_, ?_, ?_, ?_, ?_⟩
  · intro st ia dr ra rs codes p fid sid fe outc eids rels va cmds h1 _
    have h1m : p ∈ st.goodSet := by simpa using h1
    simp [process_sonarr_file, h1m]
  · intro st ia dr ra rs codes p fid mid fe outc rels va cmds h1 _
    have h1m : p ∈ st.goodSet := by simpa using h1
    simp [process_radarr_file, h1m]
  · intro st ia dr ra rs codes p fid sid fe outc eids rels va cmds h1 h2
    have h1m : p ∉ st.goodSet := by simpa using h1
    simp [process_sonarr_file, h1m, h2, effects_append]
  · intro st ia dr ra rs codes p fid sid fe outc eids rels va cmds h1 h2 h3
    have h1m : p ∉ st.goodSet := by simpa using h1
    have h3m : p ∈ st.skippedSet := by simpa using h3
    simp [process_sonarr_file, h1m, h2, h3m]
  · intro st ia dr ra rs codes p fid mid fe outc rels va cmds h1 h2
    have h1m : p ∉ st.goodSet := by simpa using h1
    simp [process_radarr_file, h1m, h2, effects_append]
  · intro st ia dr ra rs codes p fid mid fe outc rels va cmds h1 h2 h3
    have h1m : p ∉ st.goodSet := by simpa using h1
    have h3m : p ∈ st.skippedSet := by simpa using h3
    simp [process_radarr_file, h1m, h2, h3m]

/-- Witness for `good_precedence_spec` at a concrete double-membership state. -/
theorem good_precedence_witness :
    process_sonarr_file ⟨["/f"], ["/f"], ["/f"], ["/f"]⟩ true false true true ["eng"]
        "/f" 1 1 true (.ok [] 0) [] [] false []
      = ⟨⟨["/f"], ["/f"], ["/f"], ["/f"]⟩, {}, .alreadyGood⟩
    ∧ process_sonarr_file ({} : CacheState) true false true true ["eng"]
        "/g" 1 1 true (.ok [{ codec_type := "audio", lang := "eng" },
                            { codec_type := "subtitle", lang := "eng" }] 0) [] [] false []
      = ⟨add_good_file ({} : CacheState) "/g", { cacheSaves := 1, probes := 1 },
         .markedGood⟩ :=
  ⟨good_precedence_spec.1 _ true false true true ["eng"] "/f" 1 1 true (.ok [] 0) [] []
      false [] (by decide) (by decide),
   good_precedence_spec.2.2.1 _ true false true true ["eng"] "/g" 1 1 true
      (.ok [{ codec_type := "audio", lang := "eng" },
            { codec_type := "subtitle", lang := "eng" }] 0) [] [] false []
      (by decide) (by decide)⟩

/-- C2 counterexample: with `dryRun` set, processing a flagged file can still
mutate the caches — declining to view alternatives in interactive mode marks
the file permanently skipped and writes the cache files, dry-run or not
(line 596-600 of `media_quality_checker.py`; choosing `0` in the release
picker, line 440-445, does the same). -/
theorem dry_run_reacquire_cex :
    (process_sonarr_file ({} : CacheState) true true true true ["eng"] "/f" 1 1 true
        (.ok [] 0) [7] [] false []).state.skippedList = ["/f"]
    ∧ (process_sonarr_file ({} : CacheState) true true true true ["eng"] "/f" 1 1 true
        (.ok [] 0) [7] [] false []).effects.cacheSaves = 1 := by
  refine ⟨by decide, by decide⟩

/-- C2 amended: with `dryRun` set, processing a file issues no delete,
download or search call to the library API (in both pipelines); as long as
the operator does not record a permanent-skip decision (declining the
alternatives prompt, or entering `0` in the release picker), the caches are
untouched; a chosen release is reported as "DRY RUN: Would download selected
release", and the unattended pipeline reports
"[DRY RUN] Would delete and re-download" while leaving state unchanged. -/
theorem dry_run_reacquire_amended :
    (∀ (st : CacheState) (ia ra rs : Bool) (codes : List String) (p : String)
        (fid sid : Nat) (fe : Bool) (outc : FfprobeOutcome) (eids : List Nat)
        (rels : List Release) (va : Bool) (cmds : List SelCmd),
        ((process_sonarr_file st ia true ra rs codes p fid sid fe outc eids rels va
            cmds).effects.apiCalls.all (fun c => !c.isMutating)) = true)
    ∧ (∀ (st : CacheState) (ia ra rs : Bool) (codes : List String) (hf : Bool) (p : String)
        (fid mid : Nat) (fe : Bool) (outc : FfprobeOutcome) (rels : List Release)
        (va : Bool) (cmds : List SelCmd),
        ((process_radarr_file st ia true ra rs codes hf p fid mid fe outc rels va
            cmds).effects.apiCalls.all (fun c => !c.isMutating)) = true)
    ∧ (∀ (st : CacheState) (ra rs : Bool) (codes : List String) (p : String)
        (fid sid : Nat) (fe : Bool) (outc : FfprobeOutcome) (eids : List Nat)
        (rels : List Release) (cmds : List SelCmd),
        st.goodSet.contains p = false →
        should_redownload ra rs (check_file_streams fe outc codes).1
          (check_file_streams fe outc codes).2 = true →
        st.skippedSet.contains p = false →
        cmds.all (fun c => !c.isSkipChoice) = true →
        (process_sonarr_file st true true ra rs codes p fid sid fe outc eids rels true
            cmds).state = st
        ∧ (process_sonarr_file st true true ra rs codes p fid sid fe outc eids rels true
            cmds).effects.cacheSaves = 0)
    ∧ (∀ (st : CacheState) (ra rs : Bool) (codes : List String) (p : String)
        (fid sid : Nat) (fe : Bool) (outc : FfprobeOutcome) (eids : List Nat)
        (rels : List Release) (cmds : List SelCmd) (r : Release),
        st.goodSet.contains p = false →
        should_redownload ra rs (check_file_streams fe outc codes).1
          (check_file_streams fe outc codes).2 = true →
        st.skippedSet.contains p = false →
        eids.isEmpty = false →
        (display_releases_and_select st rels p cmds).1 = some r →
        "DRY RUN: Would download selected release"
          ∈ (process_sonarr_file st true true ra rs codes p fid sid fe outc eids rels true
              cmds).effects.messages)
    ∧ (∀ (st : CacheState) (ra rs : Bool) (codes : List String) (p : String)
        (fid sid : Nat) (fe : Bool) (outc : FfprobeOutcome) (eids : List Nat)
        (rels : List Release) (va : Bool) (cmds : List SelCmd),
        st.goodSet.contains p = false →
        should_redownload ra rs (check_file_streams fe outc codes).1
          (check_file_streams fe outc codes).2 = true →
        st.skippedSet.contains p = false →
        process_sonarr_file st false true ra rs codes p fid sid fe outc eids rels va cmds
          = ⟨st, { probes := 1, messages := ["[DRY RUN] Would delete and re-download"] },
             .wouldDeleteAndSearch⟩)
    ∧ (∀ (st : CacheState) (ra rs : Bool) (codes : List String) (p : String)
        (fid mid : Nat) (fe : Bool) (outc : FfprobeOutcome) (rels : List Release)
        (va : Bool) (cmds : List SelCmd),
        st.goodSet.contains p = false →
        should_redownload ra rs (check_file_streams fe outc codes).1
          (check_file_streams fe outc codes).2 = true →
        st.skippedSet.contains p = false →
        process_radarr_file st false true ra rs codes true p fid mid fe outc rels va cmds
          = ⟨st, { probes := 1, messages := ["[DRY RUN] Would delete and re-download"] },
             .wouldDeleteAndSearch⟩) := by
  refine ⟨?_, ?_, ?_, ?_, ?_, ?_⟩
  · intro st ia ra rs codes p fid sid fe outc eids rels va cmds
    have hda := (display_noApi st rels p cmds).1
    by_cases h1 : p ∈ st.goodSet
    · simp [process_sonarr_file, h1]
    · by_cases h2 : should_redownload ra rs (check_file_streams fe outc codes).1
          (check_file_streams fe outc codes).2 = true
      · by_cases h3 : p ∈ st.skippedSet
        · simp [process_sonarr_file, h1, h2, h3]
        · cases ia with
          | false =>
            simp [process_sonarr_file, h1, h2, h3, effects_append]
          | true =>
            by_cases h4 : eids = []
            · simp [process_sonarr_file, h1, h2, h3, h4, effects_append, ApiCall.isMutating]
            · cases va with
              | false =>
                simp [process_sonarr_file, h1, h2, h3, h4, effects_append, ApiCall.isMutating]
              | true =>
                cases hsel : (display_releases_and_select st rels p cmds).1 with
                | none =>
                  simp [process_sonarr_file, h1, h2, h3, h4, hsel, effects_append,
                        ApiCall.isMutating, hda]
                | some r =>
                  simp [process_sonarr_file, h1, h2, h3, h4, hsel, effects_append,
                        ApiCall.isMutating, hda]
      · simp [process_sonarr_file, h1, h2, effects_append]
  · intro st ia ra rs codes hf p fid mid fe outc rels va cmds
    have hda := (display_noApi st rels p cmds).1
    cases hf with
    | false => simp [process_radarr_file]
    | true =>
      by_cases h1 : p ∈ st.goodSet
      · simp [process_radarr_file, h1]
      · by_cases h2 : should_redownload ra rs (check_file_streams fe outc codes).1
            (check_file_streams fe outc codes).2 = true
        · by_cases h3 : p ∈ st.skippedSet
          · simp [process_radarr_file, h1, h2, h3]
          · cases ia with
            | false => simp [process_radarr_file, h1, h2, h3, effects_append]
            | true =>
              cases va with
              | false =>
                simp [process_radarr_file, h1, h2, h3, effects_append, ApiCall.isMutating]
              | true =>
                cases hsel : (display_releases_and_select st rels p cmds).1 with
                | none =>
                  simp [process_radarr_file, h1, h2, h3, hsel, effects_append,
                        ApiCall.isMutating, hda]
                | some r =>
                  simp [process_radarr_file, h1, h2, h3, hsel, effects_append,
                        ApiCall.isMutating, hda]
        · simp [process_radarr_file, h1, h2, effects_append]
  · intro st ra rs codes p fid sid fe outc eids rels cmds h1 h2 h3 h4
    have h1m : p ∉ st.goodSet := by simpa using h1
    have h3m : p ∉ st.skippedSet := by simpa using h3
    have hds := display_noSkip st rels p cmds h4
    by_cases h5 : eids = []
    · simp [process_sonarr_file, h1m, h2, h3m, h5, effects_append]
    · cases hsel : (display_releases_and_select st rels p cmds).1 with
      | none =>
        simp [process_sonarr_file, h1m, h2, h3m, h5, hsel, effects_append, hds.1, hds.2]
      | some r =>
        simp [process_sonarr_file, h1m, h2, h3m, h5, hsel, effects_append, hds.1, hds.2]
  · intro st ra rs codes p fid sid fe outc eids rels cmds r h1 h2 h3 h5 hsel
    have h1m : p ∉ st.goodSet := by simpa using h1
    have h3m : p ∉ st.skippedSet := by simpa using h3
    have h5e : ¬ eids = [] := by simpa [List.isEmpty_iff] using h5
    simp [process_sonarr_file, h1m, h2, h3m, h5e, hsel, effects_append]
  · intro st ra rs codes p fid sid fe outc eids rels va cmds h1 h2 h3
    have h1m : p ∉ st.goodSet := by simpa using h1
    have h3m : p ∉ st.skippedSet := by simpa using h3
    simp [process_sonarr_file, h1m, h2, h3m, effects_append]
  · intro st ra rs codes p fid mid fe outc rels va cmds h1 h2 h3
    have h1m : p ∉ st.goodSet := by simpa using h1
    have h3m : p ∉ st.skippedSet := by simpa using h3
    simp [process_radarr_file, h1m, h2, h3m, effects_append]

/-- Witness for `dry_run_reacquire_amended` on concrete flagged files. -/
theorem dry_run_reacquire_witness :
    ((process_sonarr_file ({} : CacheState) true true true true ["eng"] "/f" 1 1 true
        (.ok [] 0) [7] [{ guid := "g", indexerId := some 2 }] true [.choice 1]).state
      = ({} : CacheState))
    ∧ "DRY RUN: Would download selected release"
        ∈ (process_sonarr_file ({} : CacheState) true true true true ["eng"] "/f" 1 1 true
            (.ok [] 0) [7] [{ guid := "g", indexerId := some 2 }] true
            [.choice 1]).effects.messages
    ∧ process_sonarr_file ({} : CacheState) false true true true ["eng"] "/f" 1 1 true
        (.ok [] 0) [] [] false []
        = ⟨{}, { probes := 1, messages := ["[DRY RUN] Would delete and re-download"] },
           .wouldDeleteAndSearch⟩ :=
  ⟨(dry_run_reacquire_amended.2.2.1 _ true true ["eng"] "/f" 1 1 true (.ok [] 0) [7]
      [{ guid := "g", indexerId := some 2 }] [.choice 1]
      (by decide) (by decide) (by decide) (by decide)).1,
   dry_run_reacquire_amended.2.2.2.1 _ true true ["eng"] "/f" 1 1 true (.ok [] 0) [7]
      [{ guid := "g", indexerId := some 2 }] [.choice 1] { guid := "g", indexerId := some 2 }
      (by decide) (by decide) (by decide) (by decide) (by decide),
   dry_run_reacquire_amended.2.2.2.2.1 _ true true ["eng"] "/f" 1 1 true (.ok [] 0) [] []
      false [] (by decide) (by decide) (by decide)⟩

end ArrHelper
